import Mathlib

/-!
Shallow embedding of the practise-pitch-fe quiz client (src/src/App.tsx and
src/services/resultsApi.ts) and proofs about the properties claimed of it.

Conventions used throughout the embedding:
* JavaScript numbers holding integer millisecond timestamps are modelled as `Int`;
  the `parseInt` result for the question-count field is `Option Int`, where `none`
  models `NaN`.
* JavaScript `Record<number, T>` objects (the answer map and the per-question
  duration map) are modelled as functions `Nat → Option T`; `none` models an
  absent key.
* JavaScript truthiness tests are spelled out where the code relies on them
  (`!cfg.q_no`, `questionStartTime ? _ : 0`, `userAnswer && _`, `!token`,
  `exam ? _ : _`, `effectiveTopic || _`).
-/

namespace PractisePitch

/-- An MCQ question, from `interface McqQuestion` (fields `No`, `Q`, `Options`). -/
structure McqQuestion where
  no : Nat
  q : String
  options : List String
deriving Repr, DecidableEq

/-- The generated question-set union, from `type ApiResponseData =
ApiMcqResponse | ApiSubjectiveResponse`.  The MCQ variant carries the parallel
`QuestionArray` and `AnswerArray`; the subjective variant carries a list of
prompt strings. -/
inductive ApiResponseData where
  | mcq (questionArray : List McqQuestion) (answerArray : List String)
  | subjective (questionArray : List String)
deriving Repr, DecidableEq

/-- Number of questions in a question set: the code reads
`questions.QuestionArray.length` in both variants. -/
def numQuestions : ApiResponseData → Nat
  | .mcq questionArray _ => questionArray.length
  | .subjective questionArray => questionArray.length

/-- The quiz configuration, from the `quizConfig` `useState` record.  `q_no` is
`Option Int` because the form stores `parseInt(value, 10)`, which can be `NaN`
(modelled as `none`). -/
structure QuizConfig where
  exam : String
  q_no : Option Int
  difficulty : String
  topic : String
  questionType : String
  language : String
deriving Repr, DecidableEq

/-- `UserAnswers` (`Record<number, string>`): absent keys are `none`. -/
abbrev UserAnswers := Nat → Option String

/-- `perQuestionDurationsMs` (`Record<number, number>`): absent keys are `none`. -/
abbrev DurationsMap := Nat → Option Int

/-- The component state of `App`, collecting the `useState` variables that the
quiz session logic reads and writes. -/
structure QuizState where
  isCreating : Bool
  error : Option String
  quizConfig : QuizConfig
  questions : Option ApiResponseData
  preparedQuestions : Option ApiResponseData
  currentQuestionIndex : Nat
  userAnswers : UserAnswers
  isSubmitted : Bool
  formErrorQno : Option String
  quizStartTime : Option Int
  totalTimeMs : Option Int
  showAnswers : Bool
  showResultsPanel : Bool
  resultDetailOpen : Bool
  effectiveTopic : String
  questionStartTime : Option Int
  currentQuestionElapsedMs : Int
  perQuestionDurationsMs : DurationsMap

/-- The initial values of the `useState` hooks (App.tsx lines 51-109). -/
def initialState : QuizState where
  isCreating := false
  error := none
  quizConfig :=
    { exam := "UPSC", q_no := some 5, difficulty := "Medium",
      topic := "Miscellaneous", questionType := "MCQ", language := "English" }
  questions := none
  preparedQuestions := none
  currentQuestionIndex := 0
  userAnswers := fun _ => none
  isSubmitted := false
  formErrorQno := none
  quizStartTime := none
  totalTimeMs := none
  showAnswers := false
  showResultsPanel := false
  resultDetailOpen := false
  effectiveTopic := "Miscellaneous"
  questionStartTime := none
  currentQuestionElapsedMs := 0
  perQuestionDurationsMs := fun _ => none

/-- The session phase, read off the render dispatch (App.tsx lines 1087-1096):
the setup form (Configuring) shows when neither `questions` nor
`preparedQuestions` is set, the ready screen when only `preparedQuestions` is,
the quiz when `questions` is set and not submitted, and the results or the
answers review after submission depending on `showAnswers`. -/
inductive SessionPhase where
  | Configuring
  | ReadyToStart
  | InProgress
  | Submitted
  | ReviewingAnswers
deriving Repr, DecidableEq

/-- Phase of a state, per the render dispatch described on `SessionPhase`. -/
def phase (st : QuizState) : SessionPhase :=
  match st.questions with
  | none =>
    match st.preparedQuestions with
    | none => .Configuring
    | some _ => .ReadyToStart
  | some _ =>
    if st.isSubmitted then
      if st.showAnswers then .ReviewingAnswers else .Submitted
    else .InProgress

/-! ## JavaScript string primitives

The JS string methods the code relies on are modelled structurally on the
character list of a `String` (ASCII-faithful; the quiz data is ASCII), so that
every definition evaluates by kernel reduction. -/

/-- JavaScript `s.startsWith(p)`: `p` is a prefix of `s`. -/
def jsStartsWith (s p : String) : Bool :=
  p.data.isPrefixOf s.data

/-- JavaScript `s.toLowerCase()` (ASCII model). -/
def jsToLower (s : String) : String :=
  String.mk (s.data.map Char.toLower)

/-- JavaScript `s.trim()`: strip whitespace from both ends (ASCII model). -/
def jsTrim (s : String) : String :=
  String.mk (((s.data.dropWhile Char.isWhitespace).reverse.dropWhile
    Char.isWhitespace).reverse)

/-! ## Pure helper functions -/

/-- JavaScript `String(x).padStart(n, c)`: prepend copies of `c` until the
length is at least `n`. -/
def padStart (s : String) (n : Nat) (c : Char) : String :=
  String.mk (List.replicate (n - s.length) c) ++ s

/-- `formatDuration` (App.tsx lines 1213-1220).  `Math.floor(ms / 1000)` on an
integer number of milliseconds is floor division, `Int.fdiv`; `Math.max(0, _)`
clamps below at zero. -/
def formatDuration (ms : Int) : String :=
  let totalSeconds : Nat := (max 0 (Int.fdiv ms 1000)).toNat
  let minutes := totalSeconds / 60
  let seconds := totalSeconds % 60
  let mm := padStart (Nat.repr minutes) 2 '0'
  let ss := padStart (Nat.repr seconds) 2 '0'
  mm ++ ":" ++ ss

/-- `resolveTopic` (App.tsx lines 1222-1230).  `(cfg.topic || '')` is the
identity on strings except that it maps the empty string to itself, so it is
dropped; `exam ? A : B` tests non-emptiness of the trimmed exam string. -/
def resolveTopic (cfg : QuizConfig) : String :=
  let raw := jsTrim cfg.topic
  let lower := jsToLower raw
  if raw = "" ∨ lower = "any topic" ∨ lower = "miscellaneous" ∨ lower = "miscellanious" then
    let exam := jsTrim cfg.exam
    if exam = "" then "Miscellaneous" else "Miscellaneous related to " ++ exam
  else raw

/-- `calculateScore` (App.tsx lines 902-918), as a function of the two pieces
of state it reads (`questions` and `userAnswers`).  A non-MCQ or absent
question set scores 0.  Otherwise the code walks `QuestionArray` and counts the
indices whose user answer is truthy (present and non-empty) and starts with
`AnswerArray[index]`.  Reading `AnswerArray` out of range yields JavaScript
`undefined`, which `String.prototype.startsWith` coerces to the string
`"undefined"`; that coercion is modelled by the `getD "undefined"` default. -/
def calculateScore (questions : Option ApiResponseData) (userAnswers : UserAnswers) : Nat :=
  match questions with
  | some (.mcq questionArray answerArray) =>
    (List.range questionArray.length).countP fun index =>
      let correctAnswerLetter := (answerArray.get? index).getD "undefined"
      match userAnswers index with
      | some userAnswer => userAnswer != "" && jsStartsWith userAnswer correctAnswerLetter
      | none => false
  | _ => 0

/-! ## Validation and quiz creation -/

/-- `validateAndSetErrors` (App.tsx lines 130-137), returning the `q_no` field
error it stores.  The guard is `!cfg.q_no || Number.isNaN(cfg.q_no) ||
cfg.q_no < 1 || cfg.q_no > 20`: `none` models `NaN` (which is also falsy), and
the explicit `v = 0` disjunct models the falsiness of the number `0`. -/
def validateAndSetErrors (cfg : QuizConfig) : Option String :=
  match cfg.q_no with
  | none => some "Questions must be between 1 and 20"
  | some v =>
    if v = 0 ∨ v < 1 ∨ v > 20 then some "Questions must be between 1 and 20" else none

/-- The JSON body of the generation request, `{ ...quizConfig, topic: resolvedTopic }`
(App.tsx line 182). -/
structure GenRequest where
  exam : String
  q_no : Option Int
  difficulty : String
  topic : String
  questionType : String
  language : String
deriving Repr, DecidableEq

/-- `handleCreateQuiz` (App.tsx lines 142-204) up to the network boundary: it
clears the transient quiz state, validates, and either stops with the field
error set (issuing no request, second component `none`) or records the
resolved topic and issues the generation request.  The response handling after
`fetch` is outside this model. -/
def handleCreateQuiz (st : QuizState) : QuizState × Option GenRequest :=
  let st0 := { st with
    isCreating := true, error := none, questions := none, preparedQuestions := none,
    userAnswers := fun _ => none, currentQuestionIndex := 0, isSubmitted := false,
    totalTimeMs := none }
  let e := validateAndSetErrors st.quizConfig
  let st1 := { st0 with formErrorQno := e }
  match e with
  | some _ => ({ st1 with isCreating := false }, none)
  | none =>
    let resolvedTopic := resolveTopic st.quizConfig
    ({ st1 with effectiveTopic := resolvedTopic },
     some { exam := st.quizConfig.exam, q_no := st.quizConfig.q_no,
            difficulty := st.quizConfig.difficulty, topic := resolvedTopic,
            questionType := st.quizConfig.questionType,
            language := st.quizConfig.language })

/-! ## In-quiz transitions -/

/-- `beginPreparedQuiz` (App.tsx lines 206-216).  Note that the code does not
write `questionStartTime`; the field keeps whatever value it had. -/
def beginPreparedQuiz (st : QuizState) (now : Int) : QuizState :=
  match st.preparedQuestions with
  | none => st
  | some pq =>
    { st with
      questions := some pq
      preparedQuestions := none
      quizStartTime := some now
      currentQuestionElapsedMs := 0
      perQuestionDurationsMs := fun _ => none
      currentQuestionIndex := 0
      userAnswers := fun _ => none
      isSubmitted := false }

/-- `handleAnswerChange` (App.tsx lines 221-226): upsert the current index. -/
def handleAnswerChange (st : QuizState) (value : String) : QuizState :=
  { st with userAnswers := fun i =>
      if i = st.currentQuestionIndex then some value else st.userAnswers i }

/-- The elapsed-time expression of the navigation handlers,
`questionStartTime ? Date.now() - questionStartTime : 0`: a `null` or `0`
(falsy) start timestamp yields 0. -/
def navElapsed (questionStartTime : Option Int) (now : Int) : Int :=
  match questionStartTime with
  | some t => if t = 0 then 0 else now - t
  | none => 0

/-- The duration-map update `{...prev, [currentQuestionIndex]: (prev[currentQuestionIndex] || 0) + elapsed}`
shared by both navigation handlers and the submit handler.  A stored `0` is
falsy, but `(0 || 0) = 0`, so `getD 0` is faithful. -/
def flushInto (prev : DurationsMap) (idx : Nat) (elapsed : Int) : DurationsMap :=
  fun i => if i = idx then some ((prev idx).getD 0 + elapsed) else prev i

/-- `handleNextQuestion` (App.tsx lines 231-249): a no-op without a question
set or on the last question; otherwise it flushes the current question's
elapsed time, increments the index, and restarts the question timer. -/
def handleNextQuestion (st : QuizState) (now : Int) : QuizState :=
  match st.questions with
  | none => st
  | some q =>
    if st.currentQuestionIndex < numQuestions q - 1 then
      { st with
        perQuestionDurationsMs :=
          flushInto st.perQuestionDurationsMs st.currentQuestionIndex
            (navElapsed st.questionStartTime now)
        currentQuestionIndex := st.currentQuestionIndex + 1
        questionStartTime := some now
        currentQuestionElapsedMs := 0 }
    else st

/-- `handlePrevQuestion` (App.tsx lines 254-266): a no-op at index 0; the code
has no `questions` guard here. -/
def handlePrevQuestion (st : QuizState) (now : Int) : QuizState :=
  if 0 < st.currentQuestionIndex then
    { st with
      perQuestionDurationsMs :=
        flushInto st.perQuestionDurationsMs st.currentQuestionIndex
          (navElapsed st.questionStartTime now)
      currentQuestionIndex := st.currentQuestionIndex - 1
      questionStartTime := some now
      currentQuestionElapsedMs := 0 }
  else st

/-- The body of the save request, `saveResultsToBackend`'s `payload`
(App.tsx lines 323-335). -/
structure SavePayload where
  topic : String
  timeMs : Int
  questions : ApiResponseData
  userAnswers : UserAnswers
  score : Nat

/-- `handleSubmitQuiz` (App.tsx lines 271-286) together with the synchronous
part of `saveResults` (lines 309-335).  The flush happens only when
`questionStartTime !== null` (no truthiness test here, unlike navigation);
`quizStartTime ? Date.now() - quizStartTime : 0` is a truthiness test.
`saveResults` returns without a request when `questions` is absent; otherwise
the payload's topic is  exam + " : " + (`effectiveTopic || resolveTopic(quizConfig)`)
and its score is `calculateScore()`.  The second component is the save request
issued, if any. -/
def handleSubmitQuiz (st : QuizState) (now : Int) : QuizState × Option SavePayload :=
  let durations :=
    match st.questionStartTime with
    | some t => flushInto st.perQuestionDurationsMs st.currentQuestionIndex (now - t)
    | none => st.perQuestionDurationsMs
  let total : Int :=
    match st.quizStartTime with
    | some t => if t = 0 then 0 else now - t
    | none => 0
  let st1 := { st with
    perQuestionDurationsMs := durations
    isSubmitted := true
    totalTimeMs := some total }
  let payload : Option SavePayload :=
    match st.questions with
    | none => none
    | some qs =>
      some { topic := st.quizConfig.exam ++ " : " ++
               (if st.effectiveTopic = "" then resolveTopic st.quizConfig else st.effectiveTopic)
             timeMs := total
             questions := qs
             userAnswers := st.userAnswers
             score := calculateScore st.questions st.userAnswers }
  (st1, payload)

/-! ## Resets -/

/-- The `Take Another Quiz` click handler (App.tsx lines 812-822).  It resets
`questions`, `isSubmitted`, `userAnswers`, `currentQuestionIndex`,
`quizStartTime`, `totalTimeMs` and `showAnswers` — and nothing else. -/
def takeAnotherQuiz (st : QuizState) : QuizState :=
  { st with
    questions := none
    isSubmitted := false
    userAnswers := fun _ => none
    currentQuestionIndex := 0
    quizStartTime := none
    totalTimeMs := none
    showAnswers := false }

/-- `goHome` (App.tsx lines 406-416).  It resets the results-browsing views,
`error`, `isSubmitted`, `questions`, `showAnswers` and the index — it touches
neither `userAnswers` nor `perQuestionDurationsMs`. -/
def goHome (st : QuizState) : QuizState :=
  { st with
    showResultsPanel := false
    resultDetailOpen := false
    error := none
    isSubmitted := false
    questions := none
    showAnswers := false
    currentQuestionIndex := 0 }

/-! ## Results gateway entry points -/

/-- Outcome of `loadResultsPage` up to the network boundary: either a failure
raised before any request, or the list request that is issued. -/
inductive ResultsListOutcome where
  | failure (message : String)
  | request (page : Nat) (limit : Nat) (token : String)
deriving Repr, DecidableEq

/-- `loadResultsPage` (App.tsx lines 423-440): `if (!token) throw new
Error('Not authenticated')` before `fetchResultsList`; `!token` is true for a
missing token and for the empty string. -/
def loadResultsPage (token : Option String) (page limit : Nat) : ResultsListOutcome :=
  match token with
  | none => .failure "Not authenticated"
  | some t => if t = "" then .failure "Not authenticated" else .request page limit t

/-- Outcome of `loadResultDetail` up to the network boundary. -/
inductive ResultDetailOutcome where
  | failure (message : String)
  | request (id : String) (token : String)
deriving Repr, DecidableEq

/-- `loadResultDetail` (App.tsx lines 442-458): same credential gate before
`fetchResultById`. -/
def loadResultDetail (token : Option String) (id : String) : ResultDetailOutcome :=
  match token with
  | none => .failure "Not authenticated"
  | some t => if t = "" then .failure "Not authenticated" else .request id t

/-! ## Derived notions used by the claims -/

/-- Sum of the entries of a duration map over the question-index range. -/
def sumDurations (d : DurationsMap) (n : Nat) : Int :=
  ((List.range n).map fun i => (d i).getD 0).sum

/-! ## Concrete fixtures -/

/-- A two-question MCQ array used in concrete evaluations. -/
def exampleQuestionList : List McqQuestion :=
  [{ no := 1, q := "Capital of France?", options := ["A. Lyon", "B. Paris"] },
   { no := 2, q := "Capital of Italy?", options := ["A. Rome", "B. Milan"] }]

/-- The two-question MCQ set with answer key B, A. -/
def exampleMcqSet : ApiResponseData :=
  .mcq exampleQuestionList ["B", "A"]

/-- Answers from the spec's scorer example: index 0 correct, index 1 wrong. -/
def exampleAnswers : UserAnswers :=
  fun i => if i = 0 then some "B. Paris" else if i = 1 then some "C. Rome" else none

/-- A fresh session that has just received a prepared question set (the state
right after a successful generation response on a fresh page load). -/
def preparedFreshState : QuizState :=
  { initialState with preparedQuestions := some exampleMcqSet }

/-- The final state of the trace: Start pressed at t=100, Next at t=105,
Submit at t=109 (times in ms). -/
def c1FinalState : QuizState :=
  (handleSubmitQuiz (handleNextQuestion (beginPreparedQuiz preparedFreshState 100) 105) 109).1

/-- A prepared session whose `questionStartTime` still holds a stale stamp
from an earlier quiz (it is never cleared between quizzes). -/
def preparedStaleState : QuizState :=
  { initialState with
    preparedQuestions := some exampleMcqSet
    questionStartTime := some 999 }

/-- A session that has just received a prepared set while `questionStartTime`
still holds the stamp 95 left by the previous quiz's last navigation (nothing
clears it between quizzes). -/
def preparedSecondState : QuizState :=
  { initialState with
    preparedQuestions := some exampleMcqSet
    questionStartTime := some 95 }

/-- A submitted session reached by the model's own transitions: Start at
t=100, answer question 0, Next at t=105 (flushing 10 ms into index 0), Submit
at t=109 from the last question (flushing 4 ms into index 1). -/
def submittedState : QuizState :=
  (handleSubmitQuiz
    (handleNextQuestion
      (handleAnswerChange (beginPreparedQuiz preparedSecondState 100) "B. Paris") 105) 109).1

/-- A configuring session whose question count is out of range. -/
def badConfigState : QuizState :=
  { initialState with
    quizConfig := { initialState.quizConfig with q_no := some 25 } }

/-- An in-progress session sitting on the last question (index 1 of 2). -/
def lastQState : QuizState :=
  { initialState with
    questions := some exampleMcqSet
    currentQuestionIndex := 1
    questionStartTime := some 100 }

/-- An in-progress session sitting on the first question. -/
def firstQState : QuizState :=
  { initialState with
    questions := some exampleMcqSet
    questionStartTime := some 100 }

/-- An in-progress subjective session with one free-text answer. -/
def subjectiveState : QuizState :=
  { initialState with
    questions := some (.subjective ["Explain the monsoon."])
    userAnswers := fun i => if i = 0 then some "my long answer" else none
    quizStartTime := some 100
    questionStartTime := some 100 }

/-! ## Helper lemmas -/

/-- Lowercasing a string is empty exactly when the string is. -/
theorem jsToLower_eq_empty_iff (s : String) : jsToLower s = "" ↔ s = "" := by
  rw [jsToLower, String.ext_iff, String.ext_iff]
  show s.data.map Char.toLower = "".data ↔ s.data = "".data
  simp

/-- Length of the `padStart` model. -/
theorem padStart_length (s : String) (n : Nat) (c : Char) :
    (padStart s n c).length = (n - s.length) + s.length := by
  simp [padStart]

/-! ## Claim theorems -/

/-- The topic resolver as the specification words it: trim the topic,
lowercase it, and test membership in the sentinel set. -/
def resolveTopicClaim (cfg : QuizConfig) : String :=
  let t := jsTrim cfg.topic
  if jsToLower t ∈ (["", "any topic", "miscellaneous", "miscellanious"] : List String) then
    let exam := jsTrim cfg.exam
    if exam = "" then "Miscellaneous" else "Miscellaneous related to " ++ exam
  else t

/-- C5: for every topic and exam string, `resolveTopic` trims the topic and
case-insensitively compares it against the sentinel set {"", "any topic",
"miscellaneous", "miscellanious"}; on a match it returns "Miscellaneous
related to {exam}" when the trimmed exam is non-empty and "Miscellaneous" when
it is empty, and otherwise it returns the trimmed topic — totally, with no
failure mode.  The spec's concrete examples are included. -/
theorem resolveTopic_spec :
    (∀ cfg : QuizConfig, resolveTopic cfg = resolveTopicClaim cfg) ∧
    resolveTopic { initialState.quizConfig with topic := "", exam := "UPSC" } =
      "Miscellaneous related to UPSC" ∧
    resolveTopic { initialState.quizConfig with topic := "", exam := "" } = "Miscellaneous" ∧
    resolveTopic { initialState.quizConfig with topic := "Monsoon", exam := "UPSC" } = "Monsoon" ∧
    resolveTopic { initialState.quizConfig with topic := "  MISCELLANEOUS ", exam := "GRE" } =
      "Miscellaneous related to GRE" := by
  refine ⟨fun cfg => ?_, by decide, by decide, by decide, by decide⟩
  have hmem : (jsToLower (jsTrim cfg.topic) ∈
      (["", "any topic", "miscellaneous", "miscellanious"] : List String)) ↔
      (jsTrim cfg.topic = "" ∨ jsToLower (jsTrim cfg.topic) = "any topic" ∨
        jsToLower (jsTrim cfg.topic) = "miscellaneous" ∨
        jsToLower (jsTrim cfg.topic) = "miscellanious") := by
    simp only [List.mem_cons, List.not_mem_nil, or_false, jsToLower_eq_empty_iff]
  simp only [resolveTopic, resolveTopicClaim]
  exact if_congr hmem.symm rfl rfl

/-- C8: the duration formatter is total; negative inputs clamp to zero, the
output is MM:SS with both fields zero-padded to at least two digits, seconds
below 60 and minutes unbounded, and the spec's four examples hold. -/
theorem formatDuration_spec :
    (∀ ms : Int, ms < 0 → formatDuration ms = "00:00") ∧
    (∀ ms : Int, ∃ m s : Nat, s < 60 ∧
      60 * (m : Nat) + s = (max 0 (Int.fdiv ms 1000)).toNat ∧
      formatDuration ms =
        padStart (Nat.repr m) 2 '0' ++ ":" ++ padStart (Nat.repr s) 2 '0' ∧
      2 ≤ (padStart (Nat.repr m) 2 '0').length ∧
      2 ≤ (padStart (Nat.repr s) 2 '0').length) ∧
    formatDuration 0 = "00:00" ∧
    formatDuration 61000 = "01:01" ∧
    formatDuration (-500) = "00:00" ∧
    formatDuration 3661000 = "61:01" := by
  refine ⟨fun ms h => ?_, fun ms => ?_, by decide, by decide, by decide, by decide⟩
  · have h1 : Int.fdiv ms 1000 = ms / 1000 := Int.fdiv_eq_ediv ms (by omega)
    have h2 : max 0 (Int.fdiv ms 1000) = 0 := by rw [h1]; omega
    rw [formatDuration, h2]
    decide
  · refine ⟨(max 0 (Int.fdiv ms 1000)).toNat / 60, (max 0 (Int.fdiv ms 1000)).toNat % 60,
      Nat.mod_lt _ (by omega), Nat.div_add_mod _ 60, rfl, ?_, ?_⟩ <;>
      rw [padStart_length] <;> omega

/-- C9: listing saved results or fetching one by id with no valid access token
fails with "Not authenticated" before any network request (the outcome is a
`failure`, not a `request`). -/
theorem missing_credential_fails_early (token : Option String) (page limit : Nat)
    (id : String) (h : token = none ∨ token = some "") :
    loadResultsPage token page limit = .failure "Not authenticated" ∧
    loadResultDetail token id = .failure "Not authenticated" := by
  rcases h with h | h <;> subst h <;>
    exact ⟨by simp [loadResultsPage], by simp [loadResultDetail]⟩

/-- Witness for C9 at a concrete missing token. -/
theorem missing_credential_fails_early_witness :
    loadResultsPage none 0 5 = .failure "Not authenticated" ∧
    loadResultDetail none "abc123" = .failure "Not authenticated" :=
  missing_credential_fails_early none 0 5 "abc123" (Or.inl rfl)

/-- Witness for C8 at concrete inputs (negative input clamps; 61000 ms shows
the MM:SS shape). -/
theorem formatDuration_spec_witness :
    formatDuration (-7) = "00:00" ∧ formatDuration 61000 = "01:01" :=
  ⟨formatDuration_spec.1 (-7) (by decide), formatDuration_spec.2.2.2.1⟩

/-- C10: the scorer returns 0 when the active question set is absent or of the
Subjective variant, so submitting a Subjective quiz issues a save request
whose score is exactly 0 whatever the answers. -/
theorem subjective_scores_zero (st : QuizState) (now : Int) (ans : UserAnswers)
    (prompts : List String) (h : st.questions = some (.subjective prompts)) :
    calculateScore none ans = 0 ∧
    calculateScore (some (.subjective prompts)) ans = 0 ∧
    Option.map SavePayload.score (handleSubmitQuiz st now).2 = some 0 := by
  refine ⟨rfl, rfl, ?_⟩
  simp only [handleSubmitQuiz, h, calculateScore, Option.map]

/-- Witness for C10: submitting a concrete subjective session saves score 0. -/
theorem subjective_scores_zero_witness :
    calculateScore none exampleAnswers = 0 ∧
    calculateScore (some (.subjective ["Explain the monsoon."])) exampleAnswers = 0 ∧
    Option.map SavePayload.score (handleSubmitQuiz subjectiveState 109).2 = some 0 :=
  subjective_scores_zero subjectiveState 109 exampleAnswers ["Explain the monsoon."] rfl

/-- The scorer exactly as claim C4 words it: count the indices in [0, n) whose
answer-map entry exists and starts with the key's label at that index. -/
def claimedScore (n : Nat) (key : List String) (ans : UserAnswers) : Nat :=
  (List.range n).countP fun i =>
    match ans i with
    | some u => jsStartsWith u (key.getD i "")
    | none => false

/-- Counterexample for C4 as stated: with answer key [""] and an answer map
holding the empty string at index 0, the entry exists and starts with the
key's label ("" starts with ""), so the claim predicts score 1 — but the code
treats the empty-string answer as falsy and scores 0. -/
theorem calculateScore_claim_counterexample :
    claimedScore 1 [""] (fun i => if i = 0 then some "" else none) = 1 ∧
    calculateScore (some (.mcq [{ no := 1, q := "q", options := [] }] [""]))
      (fun i => if i = 0 then some "" else none) = 0 := by
  constructor <;> decide

/-- C4 (amended): for an MCQ set whose answer key matches the question count,
the scorer returns the count of indices in [0, n) whose answer-map entry
exists, is non-empty, and starts with the key's label at that index; an absent
entry counts as incorrect without error, and the result is at most n. -/
theorem calculateScore_mcq_characterisation (qArr : List McqQuestion)
    (key : List String) (ans : UserAnswers) (h : key.length = qArr.length) :
    calculateScore (some (.mcq qArr key)) ans =
      (List.range qArr.length).countP (fun i =>
        match ans i with
        | some u => u != "" && jsStartsWith u (key.getD i "")
        | none => false) ∧
    calculateScore (some (.mcq qArr key)) ans ≤ qArr.length := by
  have heq : calculateScore (some (.mcq qArr key)) ans =
      (List.range qArr.length).countP (fun i =>
        match ans i with
        | some u => u != "" && jsStartsWith u (key.getD i "")
        | none => false) := by
    simp only [calculateScore]
    refine List.countP_congr fun i hi => ?_
    have hi' : i < key.length := h ▸ List.mem_range.mp hi
    have : key.get? i = some (key.getD i "") := by
      rw [List.getD_eq_getElem?_getD]
      cases hx : key[i]? with
      | none => exact absurd (List.getElem?_eq_none_iff.mp hx) (by omega)
      | some x => simp [List.get?_eq_getElem?, hx]
    rw [this]
    cases ans i <;> simp
  refine ⟨heq, ?_⟩
  rw [heq]
  calc (List.range qArr.length).countP _ ≤ (List.range qArr.length).length :=
        List.countP_le_length _
    _ = qArr.length := List.length_range qArr.length

/-- Witness for C4 at the spec's example: key ["B","A"] with answers
{0:"B. Paris", 1:"C. Rome"} scores 1, and still 1 with index 1 absent. -/
theorem calculateScore_mcq_characterisation_witness :
    (calculateScore (some (.mcq exampleQuestionList ["B", "A"])) exampleAnswers =
      (List.range exampleQuestionList.length).countP (fun i =>
        match exampleAnswers i with
        | some u => u != "" && jsStartsWith u ((["B", "A"] : List String).getD i "")
        | none => false) ∧
     calculateScore (some (.mcq exampleQuestionList ["B", "A"])) exampleAnswers ≤
       exampleQuestionList.length) ∧
    calculateScore (some (.mcq exampleQuestionList ["B", "A"])) exampleAnswers = 1 ∧
    calculateScore (some (.mcq exampleQuestionList ["B", "A"]))
      (fun i => if i = 0 then some "B. Paris" else none) = 1 :=
  ⟨calculateScore_mcq_characterisation exampleQuestionList ["B", "A"] exampleAnswers
      (by decide),
   by decide, by decide⟩

/-- C7: with a question set present, navigate-next on the last question is a
no-op and navigate-prev on the first question is a no-op (the whole state,
timing included, is unchanged); consequently an in-range index stays in
[0, questionCount-1] under both navigations. -/
theorem navigation_safety (st : QuizState) (now : Int) :
    (∀ q, st.questions = some q → st.currentQuestionIndex = numQuestions q - 1 →
      handleNextQuestion st now = st) ∧
    (st.currentQuestionIndex = 0 → handlePrevQuestion st now = st) ∧
    (∀ q, st.questions = some q → st.currentQuestionIndex < numQuestions q →
      (handleNextQuestion st now).currentQuestionIndex < numQuestions q ∧
      (handlePrevQuestion st now).currentQuestionIndex < numQuestions q) := by
  refine ⟨fun q hq hidx => ?_, fun h0 => ?_, fun q hq hlt => ⟨?_, ?_⟩⟩
  · rw [handleNextQuestion, hq]
    simp only
    rw [if_neg (by omega)]
  · rw [handlePrevQuestion, if_neg (by omega)]
  · rw [handleNextQuestion, hq]
    simp only
    split
    · simp only
      omega
    · exact hlt
  · rw [handlePrevQuestion]
    split
    · simp only
      omega
    · exact hlt

/-- Witness for C7: at a concrete two-question session, next on the last
question and prev on the first question leave the state unchanged and keep the
index below 2. -/
theorem navigation_safety_witness :
    handleNextQuestion lastQState 200 = lastQState ∧
    handlePrevQuestion firstQState 200 = firstQState ∧
    ((handleNextQuestion firstQState 200).currentQuestionIndex < numQuestions exampleMcqSet ∧
     (handlePrevQuestion firstQState 200).currentQuestionIndex < numQuestions exampleMcqSet) :=
  ⟨(navigation_safety lastQState 200).1 exampleMcqSet rfl (by decide),
   (navigation_safety firstQState 200).2.1 rfl,
   (navigation_safety firstQState 200).2.2 exampleMcqSet rfl (by decide)⟩

/-- C6: submitting a configuration whose question count is outside [1,20]
(including the NaN case, modelled as `none`) sets the field-level error and
issues no generation request, leaving the session in Configuring; a question
count inside [1,20] never produces a validation error (and the request is
issued). -/
theorem questionCount_validation (st : QuizState) :
    ((st.quizConfig.q_no = none ∨
        ∃ v, st.quizConfig.q_no = some v ∧ (v < 1 ∨ 20 < v)) →
      (handleCreateQuiz st).2 = none ∧
      (handleCreateQuiz st).1.formErrorQno = some "Questions must be between 1 and 20" ∧
      phase (handleCreateQuiz st).1 = .Configuring) ∧
    (∀ v, st.quizConfig.q_no = some v → 1 ≤ v → v ≤ 20 →
      (handleCreateQuiz st).1.formErrorQno = none ∧
      (handleCreateQuiz st).2 ≠ none) := by
  constructor
  · intro h
    have he : validateAndSetErrors st.quizConfig =
        some "Questions must be between 1 and 20" := by
      rcases h with h | ⟨v, hv, hout⟩
      · simp only [validateAndSetErrors, h]
      · simp only [validateAndSetErrors, hv]
        rw [if_pos (by omega)]
    simp only [handleCreateQuiz, he]
    exact ⟨trivial, trivial, rfl⟩
  · intro v hv h1 h20
    have he : validateAndSetErrors st.quizConfig = none := by
      simp only [validateAndSetErrors, hv]
      rw [if_neg (by omega)]
    simp only [handleCreateQuiz, he]
    exact ⟨trivial, by simp⟩

/-- Witness for C6: question count 25 blocks with the field error and no
request; the default count 5 validates cleanly and issues the request. -/
theorem questionCount_validation_witness :
    ((handleCreateQuiz badConfigState).2 = none ∧
     (handleCreateQuiz badConfigState).1.formErrorQno =
       some "Questions must be between 1 and 20" ∧
     phase (handleCreateQuiz badConfigState).1 = .Configuring) ∧
    ((handleCreateQuiz initialState).1.formErrorQno = none ∧
     (handleCreateQuiz initialState).2 ≠ none) :=
  ⟨(questionCount_validation badConfigState).1 (Or.inr ⟨25, rfl, by omega⟩),
   (questionCount_validation initialState).2 5 rfl (by omega) (by omega)⟩

/-- Counterexample for C2 as stated: from the Submitted state reached by the
answer/next/submit trace (10 ms flushed for question 0, 4 ms for question 1),
Take Another Quiz retains the perQuestionDurations entries, and goHome retains
both the durations entries and the answer — the reset does not yield empty
maps. -/
theorem reset_retains_state_counterexample :
    phase submittedState = .Submitted ∧
    phase (takeAnotherQuiz submittedState) = .Configuring ∧
    (takeAnotherQuiz submittedState).perQuestionDurationsMs 0 = some 10 ∧
    (takeAnotherQuiz submittedState).perQuestionDurationsMs 1 = some 4 ∧
    phase (goHome submittedState) = .Configuring ∧
    (goHome submittedState).perQuestionDurationsMs 0 = some 10 ∧
    (goHome submittedState).userAnswers 0 = some "B. Paris" := by
  refine ⟨rfl, rfl, by decide, by decide, rfl, by decide, by decide⟩

/-- C2 (amended): from any Submitted or ReviewingAnswers state (with no
prepared set pending, as in every reachable such state), both resets return to
Configuring with no retained question set and index 0; Take Another Quiz
additionally clears the answer map, quizStartTime, totalTimeMs and
showAnswers, but leaves perQuestionDurations untouched, while goHome leaves
both the answer map and perQuestionDurations untouched. -/
theorem reset_behaviour (st : QuizState)
    (h : phase st = .Submitted ∨ phase st = .ReviewingAnswers)
    (hp : st.preparedQuestions = none) :
    phase (takeAnotherQuiz st) = .Configuring ∧
    (takeAnotherQuiz st).questions = none ∧
    (takeAnotherQuiz st).userAnswers = (fun _ => none) ∧
    (takeAnotherQuiz st).quizStartTime = none ∧
    (takeAnotherQuiz st).totalTimeMs = none ∧
    (takeAnotherQuiz st).currentQuestionIndex = 0 ∧
    (takeAnotherQuiz st).showAnswers = false ∧
    (takeAnotherQuiz st).perQuestionDurationsMs = st.perQuestionDurationsMs ∧
    phase (goHome st) = .Configuring ∧
    (goHome st).questions = none ∧
    (goHome st).currentQuestionIndex = 0 ∧
    (goHome st).userAnswers = st.userAnswers ∧
    (goHome st).perQuestionDurationsMs = st.perQuestionDurationsMs := by
  refine ⟨?_, rfl, rfl, rfl, rfl, rfl, rfl, rfl, ?_, rfl, rfl, rfl, rfl⟩ <;>
    simp [phase, takeAnotherQuiz, goHome, hp]

/-- Witness for C2's amended theorem at the concrete submitted session. -/
theorem reset_behaviour_witness :
    phase (takeAnotherQuiz submittedState) = .Configuring ∧
    (takeAnotherQuiz submittedState).questions = none ∧
    (takeAnotherQuiz submittedState).userAnswers = (fun _ => none) ∧
    (takeAnotherQuiz submittedState).quizStartTime = none ∧
    (takeAnotherQuiz submittedState).totalTimeMs = none ∧
    (takeAnotherQuiz submittedState).currentQuestionIndex = 0 ∧
    (takeAnotherQuiz submittedState).showAnswers = false ∧
    (takeAnotherQuiz submittedState).perQuestionDurationsMs =
      submittedState.perQuestionDurationsMs ∧
    phase (goHome submittedState) = .Configuring ∧
    (goHome submittedState).questions = none ∧
    (goHome submittedState).currentQuestionIndex = 0 ∧
    (goHome submittedState).userAnswers = submittedState.userAnswers ∧
    (goHome submittedState).perQuestionDurationsMs =
      submittedState.perQuestionDurationsMs :=
  reset_behaviour submittedState (Or.inl rfl) rfl

/-- C3 fails on the code: pressing Start on a prepared set moves it to active,
stamps quizStartTime, resets the index and clears both maps — but it does not
stamp currentQuestionStartTime (questionStartTime), which keeps its stale
value (here 999) instead of the start time 100.  The ready screen's own text
("Timers begin when you press Start.") says the per-question timer should
start here. -/
theorem start_leaves_question_timer_unstamped :
    (beginPreparedQuiz preparedStaleState 100).questions = some exampleMcqSet ∧
    (beginPreparedQuiz preparedStaleState 100).preparedQuestions = none ∧
    (beginPreparedQuiz preparedStaleState 100).quizStartTime = some 100 ∧
    (beginPreparedQuiz preparedStaleState 100).currentQuestionIndex = 0 ∧
    (beginPreparedQuiz preparedStaleState 100).userAnswers 0 = none ∧
    (beginPreparedQuiz preparedStaleState 100).perQuestionDurationsMs 0 = none ∧
    (beginPreparedQuiz preparedStaleState 100).questionStartTime = some 999 ∧
    (beginPreparedQuiz preparedStaleState 100).questionStartTime ≠ some 100 := by
  refine ⟨rfl, rfl, rfl, rfl, rfl, rfl, rfl, by decide⟩

/-- C1 fails on the code, for the same missing stamp: in the trace Start at
t=100, Next at t=105, Submit at t=109 over a two-question quiz, the first
navigation flushes 0 for question 0 (questionStartTime was never stamped at
Start), so the durations sum to 4 ms while totalTimeMs is 9 ms — the 5 ms
between Start and the first navigation are uncounted, far beyond polling
resolution. -/
theorem timing_sum_mismatch :
    sumDurations c1FinalState.perQuestionDurationsMs 2 = 4 ∧
    c1FinalState.totalTimeMs = some 9 ∧
    sumDurations c1FinalState.perQuestionDurationsMs 2 ≠
      (c1FinalState.totalTimeMs).getD 0 := by
  refine ⟨by decide, by decide, by decide⟩

end PractisePitch
